import Mathlib

/-!
Verification of the TripCraft synchronization subsystem
(`app/api/sync.py` against the specification of the `/api/sync` endpoint).

The embedding models:
  * `parse_timestamp` / `should_update` — the conflict policy evaluator;
  * the five per-entity reconciliation passes of `sync_data` (upload phase),
    as step functions folded over the incoming record lists;
  * the delta-query (download) phase over the committed table rows.

Modelling conventions:
  * Wall-clock datetimes are integers (a totally ordered timeline).  The
    two reads of the clock that matter (`datetime.utcnow()` and
    `datetime.utcnow().strftime(%Y-%m-%d)`) are packaged in a `Clock`.
  * An incoming timestamp string is abstracted by `TsStr`: whether the
    string contains the character T (which `_parse_timestamp` uses to
    dispatch), and the results of the two library parsers the code may
    call on it (`datetime.fromisoformat` after the Z-normalisation, and
    `datetime.strptime` with the legacy format).  An unparseable string
    has `none` in the corresponding slot.
  * uuid strings are opaque ids (`Id := String`); uuid well-formedness is
    not modelled (every id is well formed).  User ids are `Nat`.
  * float-valued fields (budget, amount, estimated_cost) carry no
    arithmetic in the sync code — they are only copied and truth-tested —
    so they are modelled as `Int`; `preferences` (a JSON dict) is an
    association list.  `sync.py` reads and writes `trip.preferences`
    like a regular field (the rest of the code base does too), so the
    embedded `Trip` carries it.
  * The record store is one lookup function per table
    (`Id → Option record`); `ondelete=CASCADE` child removal is part of
    the delete operations, as declared in the models.
  * Serialization to wire dicts is injective field copying and is elided:
    the download lists hold the records themselves.
-/

namespace TripCraft

abbrev Id := String

/-- Conflict-resolution strategies accepted by `SyncRequest`
(`Literal["server_wins", "client_wins", "newer_wins", "merge"]`). -/
inductive Strategy where
  | server_wins
  | client_wins
  | newer_wins
  | merge
deriving DecidableEq, Repr

/-- The clock of one request: `datetime.utcnow()` and its date rendering
`datetime.utcnow().strftime(%Y-%m-%d)`. -/
structure Clock where
  now : Int
  nowDate : String
deriving DecidableEq, Repr

/-- Abstraction of an incoming timestamp string.
`hasT` is whether the character T occurs in the string;
`isoVal` is the result of `datetime.fromisoformat` on the string after the
trailing Z (if any) is rewritten to +00:00 (`none` = the call raises);
`legacyVal` is the result of `datetime.strptime(s, %Y-%m-%d %H:%M:%S)`
(`none` = the call raises). -/
structure TsStr where
  hasT : Bool
  isoVal : Option Int
  legacyVal : Option Int
deriving DecidableEq, Repr

/-- `_parse_timestamp`: dispatch on the presence of T; fall back to the
current time when the chosen parser raises. -/
def parse_timestamp (now : Int) (s : TsStr) : Int :=
  if s.hasT then
    match s.isoVal with
    | some v => v
    | none => now
  else
    match s.legacyVal with
    | some v => v
    | none => now

/-- `_should_update`: decides whether client data overwrites server data. -/
def should_update (now : Int) (client_timestamp : TsStr)
    (server_timestamp : Option Int) (strategy : Strategy) : Bool :=
  match server_timestamp with
  | none => true
  | some server_dt =>
    let client_dt := parse_timestamp now client_timestamp
    match strategy with
    | .client_wins => true
    | .server_wins => false
    | .newer_wins => client_dt > server_dt
    | .merge => client_dt > server_dt

/-- Python `x or default` on an optional string: `None` and the empty
string are falsy. -/
def pyOrStr (v : Option String) (d : String) : String :=
  match v with
  | some s => if s = "" then d else s
  | none => d

/-- Python `x or default` on an optional number: `None` and `0` are falsy. -/
def pyOrInt (v : Option Int) (d : Int) : Int :=
  match v with
  | some n => if n = 0 then d else n
  | none => d

/-- Python `x or default` on an optional bool: `None` and `False` are falsy. -/
def pyOrBool (v : Option Bool) (d : Bool) : Bool :=
  match v with
  | some b => if b = false then d else b
  | none => d

/-- Python `x or default` on an optional dict: `None` and `{}` are falsy. -/
def pyOrDict (v : Option (List (String × String))) (d : List (String × String)) :
    List (String × String) :=
  match v with
  | some l => if l = [] then d else l
  | none => d

/-! ## Table records (`app/models/trip.py`) -/

/-- `Trip` row.  `preferences` is handled by `sync.py` (and the rest of the
app) as a trip field and is embedded as one. -/
structure Trip where
  id : Id
  user_id : Nat
  title : String
  destination : String
  start_date : String
  end_date : String
  budget : Option Int
  budget_tier : Option String
  travel_style : Option String
  interests : Option (List String)
  special_requirements : Option String
  preferences : List (String × String)
  is_generated : Bool
  created_at : Int
  updated_at : Int
  server_id : Option Id
  is_synced : Bool
  local_updated_at : Int
deriving DecidableEq, Repr

/-- `Day` row. -/
structure Day where
  id : Id
  trip_id : Id
  day_number : Int
  date : String
  title : Option String
  created_at : Int
  server_id : Option Id
  is_synced : Bool
  local_updated_at : Int
deriving DecidableEq, Repr

/-- `Activity` row. -/
structure Activity where
  id : Id
  day_id : Id
  time : Option String
  title : String
  description : Option String
  location : Option String
  estimated_cost : Option Int
  notes : Option String
  is_completed : Bool
  created_at : Int
  server_id : Option Id
  is_synced : Bool
  local_updated_at : Int
deriving DecidableEq, Repr

/-- `BudgetItem` row. -/
structure BudgetItem where
  id : Id
  trip_id : Id
  category : String
  amount : Int
  note : Option String
  created_at : Int
  server_id : Option Id
  is_synced : Bool
  local_updated_at : Int
deriving DecidableEq, Repr

/-- `Note` row. -/
structure Note where
  id : Id
  trip_id : Id
  content : String
  created_at : Int
  server_id : Option Id
  is_synced : Bool
  local_updated_at : Int
deriving DecidableEq, Repr

/-! ## Incoming sync records (request schemas in `sync.py`) -/

/-- `TripSyncData`. -/
structure TripSyncData where
  id : Id
  local_updated_at : TsStr
  is_deleted : Bool
  title : Option String
  destination : Option String
  start_date : Option String
  end_date : Option String
  budget : Option Int
  preferences : Option (List (String × String))
  is_generated : Option Bool
deriving DecidableEq, Repr

/-- `DaySyncData`. -/
structure DaySyncData where
  id : Id
  local_updated_at : TsStr
  is_deleted : Bool
  trip_id : Id
  day_number : Option Int
  date : Option String
  title : Option String
deriving DecidableEq, Repr

/-- `ActivitySyncData`. -/
structure ActivitySyncData where
  id : Id
  local_updated_at : TsStr
  is_deleted : Bool
  day_id : Id
  time : Option String
  title : Option String
  description : Option String
  location : Option String
  estimated_cost : Option Int
  notes : Option String
  is_completed : Option Bool
deriving DecidableEq, Repr

/-- `BudgetItemSyncData`. -/
structure BudgetItemSyncData where
  id : Id
  local_updated_at : TsStr
  is_deleted : Bool
  trip_id : Id
  category : Option String
  amount : Option Int
  note : Option String
deriving DecidableEq, Repr

/-- `NoteSyncData`. -/
structure NoteSyncData where
  id : Id
  local_updated_at : TsStr
  is_deleted : Bool
  trip_id : Id
  content : Option String
deriving DecidableEq, Repr

/-- `SyncRequest`. -/
structure SyncRequest where
  last_sync_at : Option TsStr
  conflict_resolution : Strategy
  trips : List TripSyncData
  days : List DaySyncData
  activities : List ActivitySyncData
  budget_items : List BudgetItemSyncData
  notes : List NoteSyncData
deriving DecidableEq, Repr

/-- `SyncConflict` response entry.  `server_updated_at` keeps the datetime
itself (the code renders it with `isoformat`). -/
structure SyncConflict where
  entity_type : String
  entity_id : Id
  client_updated_at : TsStr
  server_updated_at : Int
  resolution : String
deriving DecidableEq, Repr

/-! ## The record store -/

/-- One lookup function per table, keyed by primary key, as the
persistence layer's get-by-id view. -/
structure Store where
  trips : Id → Option Trip
  days : Id → Option Day
  activities : Id → Option Activity
  budget_items : Id → Option BudgetItem
  notes : Id → Option Note

/-- Point update of a table. -/
def mapSet {α : Type} (m : Id → Option α) (i : Id) (v : Option α) :
    Id → Option α :=
  fun j => if j = i then v else m j

/-- Deleting a trip row; `ondelete=CASCADE` removes its days, the
activities of those days, its budget items and its notes. -/
def deleteTripCascade (s : Store) (tid : Id) : Store where
  trips := mapSet s.trips tid none
  days := fun j =>
    match s.days j with
    | some d => if d.trip_id = tid then none else some d
    | none => none
  activities := fun j =>
    match s.activities j with
    | some a =>
      match s.days a.day_id with
      | some d => if d.trip_id = tid then none else some a
      | none => some a
    | none => none
  budget_items := fun j =>
    match s.budget_items j with
    | some b => if b.trip_id = tid then none else some b
    | none => none
  notes := fun j =>
    match s.notes j with
    | some n => if n.trip_id = tid then none else some n
    | none => none

/-- Deleting a day row; the cascade removes its activities. -/
def deleteDayCascade (s : Store) (did : Id) : Store :=
  { s with
    days := mapSet s.days did none
    activities := fun j =>
      match s.activities j with
      | some a => if a.day_id = did then none else some a
      | none => none }

/-- Deleting an activity row (no children). -/
def deleteActivity (s : Store) (aid : Id) : Store :=
  { s with activities := mapSet s.activities aid none }

/-- Deleting a budget item row (no children). -/
def deleteBudgetItem (s : Store) (bid : Id) : Store :=
  { s with budget_items := mapSet s.budget_items bid none }

/-- Deleting a note row (no children). -/
def deleteNote (s : Store) (nid : Id) : Store :=
  { s with notes := mapSet s.notes nid none }

/-- The state threaded through the upload phase: the store plus the
response counters and conflict list being accumulated. -/
structure SyncState where
  store : Store
  trips_uploaded : Nat
  days_uploaded : Nat
  activities_uploaded : Nat
  budget_items_uploaded : Nat
  notes_uploaded : Nat
  conflicts : List SyncConflict

/-- Fresh response state over a store (all counters zero, no conflicts). -/
def initState (s : Store) : SyncState where
  store := s
  trips_uploaded := 0
  days_uploaded := 0
  activities_uploaded := 0
  budget_items_uploaded := 0
  notes_uploaded := 0
  conflicts := []

/-! ## Upload phase: per-entity reconciliation steps
(the five loop bodies of `sync_data`) -/

/-- Building a new `Trip` row from an incoming record
(the `Trip(...)` constructor call in the create branch). -/
def mkTripFromSync (uid : Nat) (c : Clock) (d : TripSyncData) : Trip where
  id := d.id
  user_id := uid
  title := pyOrStr d.title "Untitled Trip"
  destination := pyOrStr d.destination ""
  start_date := pyOrStr d.start_date c.nowDate
  end_date := pyOrStr d.end_date c.nowDate
  budget := d.budget
  budget_tier := none
  travel_style := none
  interests := none
  special_requirements := none
  preferences := pyOrDict d.preferences []
  is_generated := pyOrBool d.is_generated false
  created_at := c.now
  updated_at := c.now
  server_id := none
  is_synced := true
  local_updated_at := parse_timestamp c.now d.local_updated_at

/-- Sparse-patch application onto an existing `Trip` row
(the chain of `if field is not None` assignments). -/
def applyTripPatch (t : Trip) (c : Clock) (d : TripSyncData) : Trip :=
  { t with
    title := d.title.getD t.title
    destination := d.destination.getD t.destination
    start_date := d.start_date.getD t.start_date
    end_date := d.end_date.getD t.end_date
    budget := match d.budget with | some b => some b | none => t.budget
    preferences := d.preferences.getD t.preferences
    is_generated := d.is_generated.getD t.is_generated
    local_updated_at := parse_timestamp c.now d.local_updated_at
    is_synced := true }

/-- One iteration of the `for trip_data in request.trips` loop. -/
def syncTripStep (uid : Nat) (strat : Strategy) (c : Clock)
    (st : SyncState) (d : TripSyncData) : SyncState :=
  let trip? := st.store.trips d.id
  if d.is_deleted then
    match trip? with
    | some trip =>
      if trip.user_id = uid then
        { st with
          store := deleteTripCascade st.store d.id
          trips_uploaded := st.trips_uploaded + 1 }
      else st
    | none => st
  else
    match trip? with
    | some trip =>
      if trip.user_id ≠ uid then st
      else if should_update c.now d.local_updated_at (some trip.local_updated_at) strat then
        { st with
          store := { st.store with
            trips := mapSet st.store.trips d.id (some (applyTripPatch trip c d)) }
          trips_uploaded := st.trips_uploaded + 1 }
      else
        { st with
          conflicts := st.conflicts ++
            [{ entity_type := "trip"
               entity_id := d.id
               client_updated_at := d.local_updated_at
               server_updated_at := trip.local_updated_at
               resolution := "server_wins" }] }
    | none =>
      { st with
        store := { st.store with
          trips := mapSet st.store.trips d.id (some (mkTripFromSync uid c d)) }
        trips_uploaded := st.trips_uploaded + 1 }

/-- Building a new `Day` row from an incoming record. -/
def mkDayFromSync (c : Clock) (d : DaySyncData) : Day where
  id := d.id
  trip_id := d.trip_id
  day_number := pyOrInt d.day_number 1
  date := pyOrStr d.date ""
  title := some (pyOrStr d.title "")
  created_at := c.now
  server_id := none
  is_synced := true
  local_updated_at := parse_timestamp c.now d.local_updated_at

/-- Sparse-patch application onto an existing `Day` row. -/
def applyDayPatch (dy : Day) (c : Clock) (d : DaySyncData) : Day :=
  { dy with
    day_number := d.day_number.getD dy.day_number
    date := d.date.getD dy.date
    title := match d.title with | some s => some s | none => dy.title
    local_updated_at := parse_timestamp c.now d.local_updated_at
    is_synced := true }

/-- One iteration of the `for day_data in request.days` loop.  Note: when
the conflict policy rejects the write, the record is skipped without a
conflict entry (unlike the trip loop). -/
def syncDayStep (uid : Nat) (strat : Strategy) (c : Clock)
    (st : SyncState) (d : DaySyncData) : SyncState :=
  let day? := st.store.days d.id
  if d.is_deleted then
    match day? with
    | some day =>
      match st.store.trips day.trip_id with
      | some trip =>
        if trip.user_id = uid then
          { st with
            store := deleteDayCascade st.store d.id
            days_uploaded := st.days_uploaded + 1 }
        else st
      | none => st
    | none => st
  else
    match day? with
    | some day =>
      match st.store.trips day.trip_id with
      | some trip =>
        if trip.user_id ≠ uid then st
        else if should_update c.now d.local_updated_at (some day.local_updated_at) strat then
          { st with
            store := { st.store with
              days := mapSet st.store.days d.id (some (applyDayPatch day c d)) }
            days_uploaded := st.days_uploaded + 1 }
        else st
      | none => st
    | none =>
      match st.store.trips d.trip_id with
      | some trip =>
        if trip.user_id = uid then
          { st with
            store := { st.store with
              days := mapSet st.store.days d.id (some (mkDayFromSync c d)) }
            days_uploaded := st.days_uploaded + 1 }
        else st
      | none => st

/-- Building a new `Activity` row from an incoming record. -/
def mkActivityFromSync (c : Clock) (d : ActivitySyncData) : Activity where
  id := d.id
  day_id := d.day_id
  time := d.time
  title := pyOrStr d.title ""
  description := d.description
  location := d.location
  estimated_cost := some (pyOrInt d.estimated_cost 0)
  notes := d.notes
  is_completed := pyOrBool d.is_completed false
  created_at := c.now
  server_id := none
  is_synced := true
  local_updated_at := parse_timestamp c.now d.local_updated_at

/-- Sparse-patch application onto an existing `Activity` row. -/
def applyActivityPatch (a : Activity) (c : Clock) (d : ActivitySyncData) : Activity :=
  { a with
    time := match d.time with | some s => some s | none => a.time
    title := d.title.getD a.title
    description := match d.description with | some s => some s | none => a.description
    location := match d.location with | some s => some s | none => a.location
    estimated_cost := match d.estimated_cost with | some v => some v | none => a.estimated_cost
    notes := match d.notes with | some s => some s | none => a.notes
    is_completed := d.is_completed.getD a.is_completed
    local_updated_at := parse_timestamp c.now d.local_updated_at
    is_synced := true }

/-- The update half of the activity loop body, factored out: the code
reaches it either after a successful ownership check or directly when the
parent day of the stored row does not resolve. -/
def activityUpdateBranch (strat : Strategy) (c : Clock)
    (st : SyncState) (d : ActivitySyncData) (a : Activity) : SyncState :=
  if should_update c.now d.local_updated_at (some a.local_updated_at) strat then
    { st with
      store := { st.store with
        activities := mapSet st.store.activities d.id (some (applyActivityPatch a c d)) }
      activities_uploaded := st.activities_uploaded + 1 }
  else st

/-- One iteration of the `for activity_data in request.activities` loop.
The ownership check in the update branch runs only inside `if day:` —
an activity whose `day_id` does not resolve is updated with no
authorization check at all. -/
def syncActivityStep (uid : Nat) (strat : Strategy) (c : Clock)
    (st : SyncState) (d : ActivitySyncData) : SyncState :=
  let activity? := st.store.activities d.id
  if d.is_deleted then
    match activity? with
    | some a =>
      match st.store.days a.day_id with
      | some day =>
        match st.store.trips day.trip_id with
        | some trip =>
          if trip.user_id = uid then
            { st with
              store := deleteActivity st.store d.id
              activities_uploaded := st.activities_uploaded + 1 }
          else st
        | none => st
      | none => st
    | none => st
  else
    match activity? with
    | some a =>
      match st.store.days a.day_id with
      | some day =>
        match st.store.trips day.trip_id with
        | some trip =>
          if trip.user_id ≠ uid then st
          else activityUpdateBranch strat c st d a
        | none => st
      | none => activityUpdateBranch strat c st d a
    | none =>
      match st.store.days d.day_id with
      | some day =>
        match st.store.trips day.trip_id with
        | some trip =>
          if trip.user_id = uid then
            { st with
              store := { st.store with
                activities := mapSet st.store.activities d.id (some (mkActivityFromSync c d)) }
              activities_uploaded := st.activities_uploaded + 1 }
          else st
        | none => st
      | none => st

/-- Building a new `BudgetItem` row from an incoming record. -/
def mkBudgetItemFromSync (c : Clock) (d : BudgetItemSyncData) : BudgetItem where
  id := d.id
  trip_id := d.trip_id
  category := pyOrStr d.category ""
  amount := pyOrInt d.amount 0
  note := d.note
  created_at := c.now
  server_id := none
  is_synced := true
  local_updated_at := parse_timestamp c.now d.local_updated_at

/-- Sparse-patch application onto an existing `BudgetItem` row. -/
def applyBudgetItemPatch (b : BudgetItem) (c : Clock) (d : BudgetItemSyncData) : BudgetItem :=
  { b with
    category := d.category.getD b.category
    amount := d.amount.getD b.amount
    note := match d.note with | some s => some s | none => b.note
    local_updated_at := parse_timestamp c.now d.local_updated_at
    is_synced := true }

/-- One iteration of the `for item_data in request.budget_items` loop. -/
def syncBudgetItemStep (uid : Nat) (strat : Strategy) (c : Clock)
    (st : SyncState) (d : BudgetItemSyncData) : SyncState :=
  let item? := st.store.budget_items d.id
  if d.is_deleted then
    match item? with
    | some b =>
      match st.store.trips b.trip_id with
      | some trip =>
        if trip.user_id = uid then
          { st with
            store := deleteBudgetItem st.store d.id
            budget_items_uploaded := st.budget_items_uploaded + 1 }
        else st
      | none => st
    | none => st
  else
    match item? with
    | some b =>
      match st.store.trips b.trip_id with
      | some trip =>
        if trip.user_id ≠ uid then st
        else if should_update c.now d.local_updated_at (some b.local_updated_at) strat then
          { st with
            store := { st.store with
              budget_items := mapSet st.store.budget_items d.id (some (applyBudgetItemPatch b c d)) }
            budget_items_uploaded := st.budget_items_uploaded + 1 }
        else st
      | none => st
    | none =>
      match st.store.trips d.trip_id with
      | some trip =>
        if trip.user_id = uid then
          { st with
            store := { st.store with
              budget_items := mapSet st.store.budget_items d.id (some (mkBudgetItemFromSync c d)) }
            budget_items_uploaded := st.budget_items_uploaded + 1 }
        else st
      | none => st

/-- Building a new `Note` row from an incoming record. -/
def mkNoteFromSync (c : Clock) (d : NoteSyncData) : Note where
  id := d.id
  trip_id := d.trip_id
  content := pyOrStr d.content ""
  created_at := c.now
  server_id := none
  is_synced := true
  local_updated_at := parse_timestamp c.now d.local_updated_at

/-- Sparse-patch application onto an existing `Note` row. -/
def applyNotePatch (n : Note) (c : Clock) (d : NoteSyncData) : Note :=
  { n with
    content := d.content.getD n.content
    local_updated_at := parse_timestamp c.now d.local_updated_at
    is_synced := true }

/-- One iteration of the `for note_data in request.notes` loop. -/
def syncNoteStep (uid : Nat) (strat : Strategy) (c : Clock)
    (st : SyncState) (d : NoteSyncData) : SyncState :=
  let note? := st.store.notes d.id
  if d.is_deleted then
    match note? with
    | some n =>
      match st.store.trips n.trip_id with
      | some trip =>
        if trip.user_id = uid then
          { st with
            store := deleteNote st.store d.id
            notes_uploaded := st.notes_uploaded + 1 }
        else st
      | none => st
    | none => st
  else
    match note? with
    | some n =>
      match st.store.trips n.trip_id with
      | some trip =>
        if trip.user_id ≠ uid then st
        else if should_update c.now d.local_updated_at (some n.local_updated_at) strat then
          { st with
            store := { st.store with
              notes := mapSet st.store.notes d.id (some (applyNotePatch n c d)) }
            notes_uploaded := st.notes_uploaded + 1 }
        else st
      | none => st
    | none =>
      match st.store.trips d.trip_id with
      | some trip =>
        if trip.user_id = uid then
          { st with
            store := { st.store with
              notes := mapSet st.store.notes d.id (some (mkNoteFromSync c d)) }
            notes_uploaded := st.notes_uploaded + 1 }
        else st
      | none => st

/-! ## Upload phase orchestration -/

/-- The five reconciliation passes of `sync_data`, in source order:
trips, days, activities, budget items, notes. -/
def sync_upload (uid : Nat) (c : Clock) (req : SyncRequest) (s : Store) : SyncState :=
  let st1 := req.trips.foldl (syncTripStep uid req.conflict_resolution c) (initState s)
  let st2 := req.days.foldl (syncDayStep uid req.conflict_resolution c) st1
  let st3 := req.activities.foldl (syncActivityStep uid req.conflict_resolution c) st2
  let st4 := req.budget_items.foldl (syncBudgetItemStep uid req.conflict_resolution c) st3
  let st5 := req.notes.foldl (syncNoteStep uid req.conflict_resolution c) st4
  st5

/-- The store left behind by the upload phase (what `session.commit()`
makes durable). -/
def uploadStore (uid : Nat) (c : Clock) (req : SyncRequest) (s : Store) : Store :=
  (sync_upload uid c req s).store

/-! ## Download phase (delta queries after commit)

The delta queries scan whole tables; they are modelled over the committed
table contents as row lists. -/

/-- The committed table rows the download phase selects over. -/
structure Rows where
  trips : List Trip
  days : List Day
  activities : List Activity
  budget_items : List BudgetItem
  notes : List Note
deriving DecidableEq, Repr

/-- The download half of the response: `server_data` plus the downloaded
counters. -/
structure DownloadResult where
  trips : List Trip
  days : List Day
  activities : List Activity
  budget_items : List BudgetItem
  notes : List Note
  trips_downloaded : Nat
  days_downloaded : Nat
  activities_downloaded : Nat
  budget_items_downloaded : Nat
  notes_downloaded : Nat
deriving DecidableEq, Repr

/-- The `select Trip where user_id == uid and local_updated_at > last_sync`
query. -/
def updatedTrips (uid : Nat) (ls : Int) (db : Rows) : List Trip :=
  db.trips.filter (fun t => decide (t.user_id = uid ∧ ls < t.local_updated_at))

/-- `user_trip_ids`: ids of all the caller's trips, recomputed after the
upload commit. -/
def userTripIds (uid : Nat) (db : Rows) : List Id :=
  (db.trips.filter (fun t => decide (t.user_id = uid))).map Trip.id

/-- The day delta query (`Day.trip_id.in_(user_trip_ids)` plus watermark). -/
def updatedDays (uid : Nat) (ls : Int) (db : Rows) : List Day :=
  db.days.filter (fun d => decide (d.trip_id ∈ userTripIds uid db ∧ ls < d.local_updated_at))

/-- `user_day_ids`: ids of all days of the caller's trips. -/
def userDayIds (uid : Nat) (db : Rows) : List Id :=
  (db.days.filter (fun d => decide (d.trip_id ∈ userTripIds uid db))).map Day.id

/-- The activity delta query; it runs only under `if user_day_ids:`. -/
def updatedActivities (uid : Nat) (ls : Int) (db : Rows) : List Activity :=
  if userDayIds uid db = [] then []
  else db.activities.filter
    (fun a => decide (a.day_id ∈ userDayIds uid db ∧ ls < a.local_updated_at))

/-- The budget item delta query. -/
def updatedBudgetItems (uid : Nat) (ls : Int) (db : Rows) : List BudgetItem :=
  db.budget_items.filter
    (fun b => decide (b.trip_id ∈ userTripIds uid db ∧ ls < b.local_updated_at))

/-- The note delta query. -/
def updatedNotes (uid : Nat) (ls : Int) (db : Rows) : List Note :=
  db.notes.filter (fun n => decide (n.trip_id ∈ userTripIds uid db ∧ ls < n.local_updated_at))

/-- The delta-query phase of `sync_data`: runs only when a watermark was
supplied; otherwise `server_data` keeps its initial empty lists and the
downloaded counters stay zero.  When the caller owns no trips
(`if user_trip_ids:` fails) only the trip delta is filled. -/
def sync_download (uid : Nat) (last_sync : Option Int) (db : Rows) : DownloadResult :=
  match last_sync with
  | none =>
    { trips := [], days := [], activities := [], budget_items := [], notes := []
      trips_downloaded := 0, days_downloaded := 0, activities_downloaded := 0
      budget_items_downloaded := 0, notes_downloaded := 0 }
  | some ls =>
    if userTripIds uid db = [] then
      { trips := updatedTrips uid ls db
        days := [], activities := [], budget_items := [], notes := []
        trips_downloaded := (updatedTrips uid ls db).length
        days_downloaded := 0, activities_downloaded := 0
        budget_items_downloaded := 0, notes_downloaded := 0 }
    else
      { trips := updatedTrips uid ls db
        days := updatedDays uid ls db
        activities := updatedActivities uid ls db
        budget_items := updatedBudgetItems uid ls db
        notes := updatedNotes uid ls db
        trips_downloaded := (updatedTrips uid ls db).length
        days_downloaded := (updatedDays uid ls db).length
        activities_downloaded := (updatedActivities uid ls db).length
        budget_items_downloaded := (updatedBudgetItems uid ls db).length
        notes_downloaded := (updatedNotes uid ls db).length }

/-! ## Concrete sample data (used by witnesses and counterexamples) -/

/-- A concrete clock. -/
def cW : Clock := { now := 100, nowDate := "2024-01-01" }

/-- An ISO timestamp string parsing to `n`. -/
def tsAt (n : Int) : TsStr := { hasT := true, isoVal := some n, legacyVal := none }

/-- Trip `T1` of user `0`, last updated at `10`. -/
def tripW : Trip where
  id := "T1"
  user_id := 0
  title := "Server Trip"
  destination := "Paris"
  start_date := "2024-03-01"
  end_date := "2024-03-04"
  budget := some 2000
  budget_tier := none
  travel_style := none
  interests := none
  special_requirements := none
  preferences := []
  is_generated := false
  created_at := 1
  updated_at := 1
  server_id := none
  is_synced := false
  local_updated_at := 10

/-- Trip `T2` of user `1` (another caller). -/
def tripB : Trip :=
  { tripW with id := "T2", user_id := 1, title := "Other Trip" }

/-- Day `D1` of trip `T1`. -/
def dayW : Day where
  id := "D1"
  trip_id := "T1"
  day_number := 7
  date := "2024-03-01"
  title := some "Arrival"
  created_at := 1
  server_id := none
  is_synced := false
  local_updated_at := 10

/-- Day `D2` of the other caller's trip `T2`. -/
def dayB : Day := { dayW with id := "D2", trip_id := "T2" }

/-- Activity `A1` of day `D1`. -/
def actW : Activity where
  id := "A1"
  day_id := "D1"
  time := some "10:00"
  title := "Louvre"
  description := some "museum"
  location := some "Paris"
  estimated_cost := some 25
  notes := none
  is_completed := false
  created_at := 1
  server_id := none
  is_synced := false
  local_updated_at := 10

/-- Activity `A2` whose `day_id` resolves to no day (orphan row). -/
def actOrphan : Activity := { actW with id := "A2", day_id := "DX" }

/-- Activity `A3` of the other caller's day `D2`. -/
def actB : Activity := { actW with id := "A3", day_id := "D2" }

/-- Budget item `B1` of trip `T1`. -/
def budW : BudgetItem where
  id := "B1"
  trip_id := "T1"
  category := "food"
  amount := 300
  note := none
  created_at := 1
  server_id := none
  is_synced := false
  local_updated_at := 10

/-- Budget item `B2` of the other caller's trip `T2`. -/
def budB : BudgetItem := { budW with id := "B2", trip_id := "T2" }

/-- Note `N1` of trip `T1`. -/
def noteW : Note where
  id := "N1"
  trip_id := "T1"
  content := "bring adapter"
  created_at := 1
  server_id := none
  is_synced := false
  local_updated_at := 10

/-- Note `N2` of the other caller's trip `T2`. -/
def noteB : Note := { noteW with id := "N2", trip_id := "T2" }

/-- A store holding all the sample rows. -/
def storeW : Store where
  trips := fun j => if j = "T1" then some tripW else if j = "T2" then some tripB else none
  days := fun j => if j = "D1" then some dayW else if j = "D2" then some dayB else none
  activities := fun j =>
    if j = "A1" then some actW else if j = "A2" then some actOrphan else
    if j = "A3" then some actB else none
  budget_items := fun j => if j = "B1" then some budW else if j = "B2" then some budB else none
  notes := fun j => if j = "N1" then some noteW else if j = "N2" then some noteB else none

/-- The empty store. -/
def emptyStore : Store where
  trips := fun _ => none
  days := fun _ => none
  activities := fun _ => none
  budget_items := fun _ => none
  notes := fun _ => none

/-! ## C3 — the conflict policy evaluator -/

/-- C3: `should_update` applies whenever the server timestamp is absent
(any strategy); always applies under client_wins; never under
server_wins; under newer_wins and merge exactly when the parsed client
timestamp is strictly newer (ties favor the server), merge being
policy-identical to newer_wins.  `parse_timestamp` takes the
`fromisoformat` value for strings containing T, the legacy
`strptime` value otherwise, and falls back to the current time when the
chosen parser fails. -/
theorem should_update_policy (now s v : Int) (ts : TsStr) (strat : Strategy) :
    should_update now ts none strat = true
    ∧ should_update now ts (some s) .client_wins = true
    ∧ should_update now ts (some s) .server_wins = false
    ∧ should_update now ts (some s) .newer_wins = decide (s < parse_timestamp now ts)
    ∧ should_update now ts (some s) .merge = should_update now ts (some s) .newer_wins
    ∧ (ts.hasT = true → ts.isoVal = some v → parse_timestamp now ts = v)
    ∧ (ts.hasT = false → ts.legacyVal = some v → parse_timestamp now ts = v)
    ∧ (ts.hasT = true → ts.isoVal = none → parse_timestamp now ts = now)
    ∧ (ts.hasT = false → ts.legacyVal = none → parse_timestamp now ts = now) := by
  refine ⟨rfl, rfl, rfl, ?_, rfl, ?_, ?_, ?_, ?_⟩
  · simp [should_update]
  · intro h1 h2; simp [parse_timestamp, h1, h2]
  · intro h1 h2; simp [parse_timestamp, h1, h2]
  · intro h1 h2; simp [parse_timestamp, h1, h2]
  · intro h1 h2; simp [parse_timestamp, h1, h2]

/-- Witness for C3 at concrete inputs. -/
theorem should_update_policy_w :
    parse_timestamp 7 (TsStr.mk true (some 3) none) = 3
    ∧ parse_timestamp 7 (TsStr.mk false none none) = 7
    ∧ should_update 7 (TsStr.mk true (some 3) none) (some 3) Strategy.newer_wins = false := by
  have h1 := should_update_policy 7 3 3 (TsStr.mk true (some 3) none) Strategy.newer_wins
  have h2 := should_update_policy 7 3 3 (TsStr.mk false none none) Strategy.newer_wins
  refine ⟨h1.2.2.2.2.2.1 rfl rfl, h2.2.2.2.2.2.2.2.2 rfl rfl, ?_⟩
  rw [h1.2.2.2.1]
  decide

/-! ## C1 — conflict recording on policy rejection -/

/-- Incoming trip record for `T1` with an older timestamp. -/
def dTripOld : TripSyncData where
  id := "T1"
  local_updated_at := tsAt 5
  is_deleted := false
  title := some "Older"
  destination := none
  start_date := none
  end_date := none
  budget := none
  preferences := none
  is_generated := none

/-- Incoming day record for `D1` with an older timestamp. -/
def dDayOld : DaySyncData where
  id := "D1"
  local_updated_at := tsAt 5
  is_deleted := false
  trip_id := "T1"
  day_number := none
  date := none
  title := some "Changed"

/-- Incoming activity record for `A1` with an older timestamp. -/
def dActOld : ActivitySyncData where
  id := "A1"
  local_updated_at := tsAt 5
  is_deleted := false
  day_id := "D1"
  time := none
  title := some "Changed"
  description := none
  location := none
  estimated_cost := none
  notes := none
  is_completed := none

/-- Incoming budget item record for `B1` with an older timestamp. -/
def dBudOld : BudgetItemSyncData where
  id := "B1"
  local_updated_at := tsAt 5
  is_deleted := false
  trip_id := "T1"
  category := some "transport"
  amount := none
  note := none

/-- Incoming note record for `N1` with an older timestamp. -/
def dNoteOld : NoteSyncData where
  id := "N1"
  local_updated_at := tsAt 5
  is_deleted := false
  trip_id := "T1"
  content := some "changed"

/-- Fresh sync state over the sample store. -/
def stW0 : SyncState := initState storeW

/-- C1 counterexample: an owned day record rejected by the `newer_wins`
policy (client 5 ≤ server 10) leaves the conflicts list empty — no
conflict entry is appended for the day entity type, while the claim
requires exactly one. -/
theorem sync_day_conflict_not_recorded :
    (syncDayStep 0 Strategy.newer_wins cW stW0 dDayOld).conflicts = []
    ∧ (syncDayStep 0 Strategy.newer_wins cW stW0 dDayOld).store.days "D1" = some dayW
    ∧ (syncDayStep 0 Strategy.newer_wins cW stW0 dDayOld).days_uploaded = 0 := by
  decide

/-- C1 (amended): when an incoming non-deleted record matches an owned
server record and the policy rejects the client write, the server record
is never mutated and no uploaded counter moves; a conflict entry
`(entity_type, entity_id, client ts, server ts, server_wins)` is
appended for the Trip reconciler only — the Day, Activity, BudgetItem
and Note reconcilers record nothing at all. -/
theorem sync_policy_reject_conflict_semantics
    (uid : Nat) (strat : Strategy) (c : Clock) (st : SyncState)
    (dt : TripSyncData) (t : Trip)
    (ht : st.store.trips dt.id = some t) (hdt : dt.is_deleted = false)
    (hot : t.user_id = uid)
    (hst : should_update c.now dt.local_updated_at (some t.local_updated_at) strat = false)
    (dd : DaySyncData) (dy : Day)
    (hdd : st.store.days dd.id = some dy) (hddel : dd.is_deleted = false)
    (ty : Trip) (hdyt : st.store.trips dy.trip_id = some ty) (hdyo : ty.user_id = uid)
    (hds : should_update c.now dd.local_updated_at (some dy.local_updated_at) strat = false)
    (da : ActivitySyncData) (a : Activity)
    (hda : st.store.activities da.id = some a) (hadel : da.is_deleted = false)
    (dya : Day) (hady : st.store.days a.day_id = some dya)
    (ta : Trip) (hat0 : st.store.trips dya.trip_id = some ta) (hao : ta.user_id = uid)
    (has0 : should_update c.now da.local_updated_at (some a.local_updated_at) strat = false)
    (dbi : BudgetItemSyncData) (b : BudgetItem)
    (hbi : st.store.budget_items dbi.id = some b) (hbdel : dbi.is_deleted = false)
    (tb : Trip) (hbt : st.store.trips b.trip_id = some tb) (hbo : tb.user_id = uid)
    (hbs : should_update c.now dbi.local_updated_at (some b.local_updated_at) strat = false)
    (dn : NoteSyncData) (n : Note)
    (hni : st.store.notes dn.id = some n) (hndel : dn.is_deleted = false)
    (tn : Trip) (hnt : st.store.trips n.trip_id = some tn) (hno : tn.user_id = uid)
    (hns : should_update c.now dn.local_updated_at (some n.local_updated_at) strat = false) :
    syncTripStep uid strat c st dt =
      { st with conflicts := st.conflicts ++
          [{ entity_type := "trip"
             entity_id := dt.id
             client_updated_at := dt.local_updated_at
             server_updated_at := t.local_updated_at
             resolution := "server_wins" }] }
    ∧ syncDayStep uid strat c st dd = st
    ∧ syncActivityStep uid strat c st da = st
    ∧ syncBudgetItemStep uid strat c st dbi = st
    ∧ syncNoteStep uid strat c st dn = st := by
  refine ⟨?_, ?_, ?_, ?_, ?_⟩
  · simp [syncTripStep, ht, hdt, hot, hst]
  · simp [syncDayStep, hdd, hddel, hdyt, hdyo, hds]
  · simp [syncActivityStep, activityUpdateBranch, hda, hadel, hady, hat0, hao, has0]
  · simp [syncBudgetItemStep, hbi, hbdel, hbt, hbo, hbs]
  · simp [syncNoteStep, hni, hndel, hnt, hno, hns]

/-- Witness for C1 at concrete inputs. -/
theorem sync_policy_reject_conflict_semantics_w :
    syncDayStep 0 Strategy.newer_wins cW stW0 dDayOld = stW0
    ∧ syncNoteStep 0 Strategy.newer_wins cW stW0 dNoteOld = stW0 := by
  have h := sync_policy_reject_conflict_semantics 0 Strategy.newer_wins cW stW0
    dTripOld tripW (by decide) (by decide) (by decide) (by decide)
    dDayOld dayW (by decide) (by decide) tripW (by decide) (by decide) (by decide)
    dActOld actW (by decide) (by decide) dayW (by decide) tripW (by decide) (by decide) (by decide)
    dBudOld budW (by decide) (by decide) tripW (by decide) (by decide) (by decide)
    dNoteOld noteW (by decide) (by decide) tripW (by decide) (by decide) (by decide)
  exact ⟨h.2.1, h.2.2.2.2⟩

/-! ## C2 — ownership isolation -/

/-- Incoming records targeting the other caller's rows. -/
def dTripB : TripSyncData := { dTripOld with id := "T2" }

/-- Day record targeting the other caller's day. -/
def dDayB : DaySyncData := { dDayOld with id := "D2", trip_id := "T2" }

/-- Activity record targeting the other caller's activity. -/
def dActB : ActivitySyncData := { dActOld with id := "A3", day_id := "D2" }

/-- Budget item record targeting the other caller's budget item. -/
def dBudB : BudgetItemSyncData := { dBudOld with id := "B2", trip_id := "T2" }

/-- Note record targeting the other caller's note. -/
def dNoteB : NoteSyncData := { dNoteOld with id := "N2", trip_id := "T2" }

/-- C2: a record whose ownership chain resolves to a different caller is
never mutated, never deleted, and moves no counter, under every strategy
and whether or not the incoming record is a tombstone; the whole sync
state (store, counters, conflicts) is untouched. -/
theorem sync_ownership_isolation
    (uid : Nat) (strat : Strategy) (c : Clock) (st : SyncState)
    (dt : TripSyncData) (t : Trip)
    (ht : st.store.trips dt.id = some t) (hot : t.user_id ≠ uid)
    (dd : DaySyncData) (dy : Day) (hdd : st.store.days dd.id = some dy)
    (ty : Trip) (hdyt : st.store.trips dy.trip_id = some ty) (hdyo : ty.user_id ≠ uid)
    (da : ActivitySyncData) (a : Activity) (hda : st.store.activities da.id = some a)
    (dya : Day) (hady : st.store.days a.day_id = some dya)
    (ta : Trip) (hat0 : st.store.trips dya.trip_id = some ta) (hao : ta.user_id ≠ uid)
    (dbi : BudgetItemSyncData) (b : BudgetItem) (hbi : st.store.budget_items dbi.id = some b)
    (tb : Trip) (hbt : st.store.trips b.trip_id = some tb) (hbo : tb.user_id ≠ uid)
    (dn : NoteSyncData) (n : Note) (hni : st.store.notes dn.id = some n)
    (tn : Trip) (hnt : st.store.trips n.trip_id = some tn) (hno : tn.user_id ≠ uid) :
    syncTripStep uid strat c st dt = st
    ∧ syncDayStep uid strat c st dd = st
    ∧ syncActivityStep uid strat c st da = st
    ∧ syncBudgetItemStep uid strat c st dbi = st
    ∧ syncNoteStep uid strat c st dn = st := by
  refine ⟨?_, ?_, ?_, ?_, ?_⟩
  · by_cases hdel : dt.is_deleted <;> simp [syncTripStep, ht, hot, hdel]
  · by_cases hdel : dd.is_deleted <;> simp [syncDayStep, hdd, hdyt, hdyo, hdel]
  · by_cases hdel : da.is_deleted <;>
      simp [syncActivityStep, hda, hady, hat0, hao, hdel]
  · by_cases hdel : dbi.is_deleted <;> simp [syncBudgetItemStep, hbi, hbt, hbo, hdel]
  · by_cases hdel : dn.is_deleted <;> simp [syncNoteStep, hni, hnt, hno, hdel]

/-- Witness for C2 at concrete inputs (caller 0 against user 1's rows). -/
theorem sync_ownership_isolation_w :
    syncTripStep 0 Strategy.client_wins cW stW0 dTripB = stW0
    ∧ syncActivityStep 0 Strategy.client_wins cW stW0 dActB = stW0 := by
  have h := sync_ownership_isolation 0 Strategy.client_wins cW stW0
    dTripB tripB (by decide) (by decide)
    dDayB dayB (by decide) tripB (by decide) (by decide)
    dActB actB (by decide) dayB (by decide) tripB (by decide) (by decide)
    dBudB budB (by decide) tripB (by decide) (by decide)
    dNoteB noteB (by decide) tripB (by decide) (by decide)
  exact ⟨h.1, h.2.2.1⟩

/-! ## C4 — `server_wins` -/

/-- Incoming records with a strictly newer client timestamp. -/
def dTripNew : TripSyncData := { dTripOld with local_updated_at := tsAt 50 }

/-- Newer day record. -/
def dDayNew : DaySyncData := { dDayOld with local_updated_at := tsAt 50 }

/-- Newer activity record. -/
def dActNew : ActivitySyncData := { dActOld with local_updated_at := tsAt 50 }

/-- Newer budget item record. -/
def dBudNew : BudgetItemSyncData := { dBudOld with local_updated_at := tsAt 50 }

/-- Newer note record. -/
def dNoteNew : NoteSyncData := { dNoteOld with local_updated_at := tsAt 50 }

/-- C4 counterexample: under `server_wins` an owned existing trip record
is indeed not updated, but a conflict entry IS recorded, while the claim
says no conflict is recorded for any entity type. -/
theorem server_wins_trip_conflict_recorded :
    (syncTripStep 0 Strategy.server_wins cW stW0 dTripNew).conflicts =
      [{ entity_type := "trip"
         entity_id := "T1"
         client_updated_at := tsAt 50
         server_updated_at := 10
         resolution := "server_wins" }]
    ∧ (syncTripStep 0 Strategy.server_wins cW stW0 dTripNew).store.trips "T1" = some tripW
    ∧ (syncTripStep 0 Strategy.server_wins cW stW0 dTripNew).trips_uploaded = 0 := by
  decide

/-- C4 (amended): under `server_wins` the client write never applies to an
owned existing record, regardless of timestamps; however a conflict entry
is recorded for the Trip reconciler (the claim's no-conflict part holds
only for Day, Activity, BudgetItem and Note). -/
theorem server_wins_never_applies
    (uid : Nat) (c : Clock) (st : SyncState)
    (dt : TripSyncData) (t : Trip)
    (ht : st.store.trips dt.id = some t) (hdt : dt.is_deleted = false)
    (hot : t.user_id = uid)
    (dd : DaySyncData) (dy : Day)
    (hdd : st.store.days dd.id = some dy) (hddel : dd.is_deleted = false)
    (ty : Trip) (hdyt : st.store.trips dy.trip_id = some ty) (hdyo : ty.user_id = uid)
    (da : ActivitySyncData) (a : Activity)
    (hda : st.store.activities da.id = some a) (hadel : da.is_deleted = false)
    (dya : Day) (hady : st.store.days a.day_id = some dya)
    (ta : Trip) (hat0 : st.store.trips dya.trip_id = some ta) (hao : ta.user_id = uid)
    (dbi : BudgetItemSyncData) (b : BudgetItem)
    (hbi : st.store.budget_items dbi.id = some b) (hbdel : dbi.is_deleted = false)
    (tb : Trip) (hbt : st.store.trips b.trip_id = some tb) (hbo : tb.user_id = uid)
    (dn : NoteSyncData) (n : Note)
    (hni : st.store.notes dn.id = some n) (hndel : dn.is_deleted = false)
    (tn : Trip) (hnt : st.store.trips n.trip_id = some tn) (hno : tn.user_id = uid) :
    syncTripStep uid Strategy.server_wins c st dt =
      { st with conflicts := st.conflicts ++
          [{ entity_type := "trip"
             entity_id := dt.id
             client_updated_at := dt.local_updated_at
             server_updated_at := t.local_updated_at
             resolution := "server_wins" }] }
    ∧ syncDayStep uid Strategy.server_wins c st dd = st
    ∧ syncActivityStep uid Strategy.server_wins c st da = st
    ∧ syncBudgetItemStep uid Strategy.server_wins c st dbi = st
    ∧ syncNoteStep uid Strategy.server_wins c st dn = st := by
  refine ⟨?_, ?_, ?_, ?_, ?_⟩
  · simp [syncTripStep, ht, hdt, hot, should_update]
  · simp [syncDayStep, hdd, hddel, hdyt, hdyo, should_update]
  · simp [syncActivityStep, activityUpdateBranch, hda, hadel, hady, hat0, hao, should_update]
  · simp [syncBudgetItemStep, hbi, hbdel, hbt, hbo, should_update]
  · simp [syncNoteStep, hni, hndel, hnt, hno, should_update]

/-- Witness for C4 at concrete inputs: even with a strictly newer client
timestamp nothing is written. -/
theorem server_wins_never_applies_w :
    syncDayStep 0 Strategy.server_wins cW stW0 dDayNew = stW0
    ∧ syncBudgetItemStep 0 Strategy.server_wins cW stW0 dBudNew = stW0 := by
  have h := server_wins_never_applies 0 cW stW0
    dTripNew tripW (by decide) (by decide) (by decide)
    dDayNew dayW (by decide) (by decide) tripW (by decide) (by decide)
    dActNew actW (by decide) (by decide) dayW (by decide) tripW (by decide) (by decide)
    dBudNew budW (by decide) (by decide) tripW (by decide) (by decide)
    dNoteNew noteW (by decide) (by decide) tripW (by decide) (by decide)
  exact ⟨h.2.1, h.2.2.2.1⟩

/-! ## C8 — tombstone handling -/

/-- C8: an incoming tombstone deletes the record and increments the
entity's uploaded counter exactly when the record exists and its
ownership chain resolves to the caller; when the record does not exist,
or any link of the chain is missing or resolves to another caller, the
state is untouched (no counter change, no conflict, no error). -/
theorem sync_tombstone_semantics (uid : Nat) (strat : Strategy) (c : Clock) :
    (∀ st (d : TripSyncData) t, d.is_deleted = true → st.store.trips d.id = some t →
      t.user_id = uid →
      syncTripStep uid strat c st d =
        { st with store := deleteTripCascade st.store d.id
                  trips_uploaded := st.trips_uploaded + 1 })
    ∧ (∀ st (d : TripSyncData), d.is_deleted = true → st.store.trips d.id = none →
        syncTripStep uid strat c st d = st)
    ∧ (∀ st (d : TripSyncData) t, d.is_deleted = true → st.store.trips d.id = some t →
        t.user_id ≠ uid → syncTripStep uid strat c st d = st)
    ∧ (∀ st (d : DaySyncData) dy ty, d.is_deleted = true → st.store.days d.id = some dy →
        st.store.trips dy.trip_id = some ty → ty.user_id = uid →
        syncDayStep uid strat c st d =
          { st with store := deleteDayCascade st.store d.id
                    days_uploaded := st.days_uploaded + 1 })
    ∧ (∀ st (d : DaySyncData), d.is_deleted = true → st.store.days d.id = none →
        syncDayStep uid strat c st d = st)
    ∧ (∀ st (d : DaySyncData) dy, d.is_deleted = true → st.store.days d.id = some dy →
        (∀ ty, st.store.trips dy.trip_id = some ty → ty.user_id ≠ uid) →
        syncDayStep uid strat c st d = st)
    ∧ (∀ st (d : ActivitySyncData) a dy ty, d.is_deleted = true →
        st.store.activities d.id = some a → st.store.days a.day_id = some dy →
        st.store.trips dy.trip_id = some ty → ty.user_id = uid →
        syncActivityStep uid strat c st d =
          { st with store := deleteActivity st.store d.id
                    activities_uploaded := st.activities_uploaded + 1 })
    ∧ (∀ st (d : ActivitySyncData), d.is_deleted = true →
        st.store.activities d.id = none → syncActivityStep uid strat c st d = st)
    ∧ (∀ st (d : ActivitySyncData) a, d.is_deleted = true →
        st.store.activities d.id = some a →
        (∀ dy, st.store.days a.day_id = some dy →
          ∀ ty, st.store.trips dy.trip_id = some ty → ty.user_id ≠ uid) →
        syncActivityStep uid strat c st d = st)
    ∧ (∀ st (d : BudgetItemSyncData) b tb, d.is_deleted = true →
        st.store.budget_items d.id = some b → st.store.trips b.trip_id = some tb →
        tb.user_id = uid →
        syncBudgetItemStep uid strat c st d =
          { st with store := deleteBudgetItem st.store d.id
                    budget_items_uploaded := st.budget_items_uploaded + 1 })
    ∧ (∀ st (d : BudgetItemSyncData), d.is_deleted = true →
        st.store.budget_items d.id = none → syncBudgetItemStep uid strat c st d = st)
    ∧ (∀ st (d : BudgetItemSyncData) b, d.is_deleted = true →
        st.store.budget_items d.id = some b →
        (∀ tb, st.store.trips b.trip_id = some tb → tb.user_id ≠ uid) →
        syncBudgetItemStep uid strat c st d = st)
    ∧ (∀ st (d : NoteSyncData) n tn, d.is_deleted = true →
        st.store.notes d.id = some n → st.store.trips n.trip_id = some tn →
        tn.user_id = uid →
        syncNoteStep uid strat c st d =
          { st with store := deleteNote st.store d.id
                    notes_uploaded := st.notes_uploaded + 1 })
    ∧ (∀ st (d : NoteSyncData), d.is_deleted = true →
        st.store.notes d.id = none → syncNoteStep uid strat c st d = st)
    ∧ (∀ st (d : NoteSyncData) n, d.is_deleted = true →
        st.store.notes d.id = some n →
        (∀ tn, st.store.trips n.trip_id = some tn → tn.user_id ≠ uid) →
        syncNoteStep uid strat c st d = st) := by
  refine ⟨?_, ?_, ?_, ?_, ?_, ?_, ?_, ?_, ?_, ?_, ?_, ?_, ?_, ?_, ?_⟩
  · intro st d t hdel hlk hown; simp [syncTripStep, hdel, hlk, hown]
  · intro st d hdel hlk; simp [syncTripStep, hdel, hlk]
  · intro st d t hdel hlk hown; simp [syncTripStep, hdel, hlk, hown]
  · intro st d dy ty hdel hlk hty hown; simp [syncDayStep, hdel, hlk, hty, hown]
  · intro st d hdel hlk; simp [syncDayStep, hdel, hlk]
  · intro st d dy hdel hlk hch
    cases hty : st.store.trips dy.trip_id with
    | none => simp [syncDayStep, hdel, hlk, hty]
    | some ty => simp [syncDayStep, hdel, hlk, hty, hch ty hty]
  · intro st d a dy ty hdel hlk hdy hty hown
    simp [syncActivityStep, hdel, hlk, hdy, hty, hown]
  · intro st d hdel hlk; simp [syncActivityStep, hdel, hlk]
  · intro st d a hdel hlk hch
    cases hdy : st.store.days a.day_id with
    | none => simp [syncActivityStep, hdel, hlk, hdy]
    | some dy =>
      cases hty : st.store.trips dy.trip_id with
      | none => simp [syncActivityStep, hdel, hlk, hdy, hty]
      | some ty => simp [syncActivityStep, hdel, hlk, hdy, hty, hch dy hdy ty hty]
  · intro st d b tb hdel hlk htb hown; simp [syncBudgetItemStep, hdel, hlk, htb, hown]
  · intro st d hdel hlk; simp [syncBudgetItemStep, hdel, hlk]
  · intro st d b hdel hlk hch
    cases htb : st.store.trips b.trip_id with
    | none => simp [syncBudgetItemStep, hdel, hlk, htb]
    | some tb => simp [syncBudgetItemStep, hdel, hlk, htb, hch tb htb]
  · intro st d n tn hdel hlk htn hown; simp [syncNoteStep, hdel, hlk, htn, hown]
  · intro st d hdel hlk; simp [syncNoteStep, hdel, hlk]
  · intro st d n hdel hlk hch
    cases htn : st.store.trips n.trip_id with
    | none => simp [syncNoteStep, hdel, hlk, htn]
    | some tn => simp [syncNoteStep, hdel, hlk, htn, hch tn htn]

/-- Tombstone for the owned trip `T1`. -/
def dTripDel : TripSyncData := { dTripOld with is_deleted := true }

/-- Tombstone for a non-existent trip id. -/
def dTripDelGhost : TripSyncData := { dTripOld with id := "TX", is_deleted := true }

/-- Witness for C8 at concrete inputs: deleting an owned trip counts, and
tombstoning a non-existent id leaves the state untouched. -/
theorem sync_tombstone_semantics_w :
    syncTripStep 0 Strategy.newer_wins cW stW0 dTripDel =
      { stW0 with store := deleteTripCascade stW0.store dTripDel.id
                  trips_uploaded := stW0.trips_uploaded + 1 }
    ∧ syncTripStep 0 Strategy.newer_wins cW stW0 dTripDelGhost = stW0 := by
  have h := sync_tombstone_semantics 0 Strategy.newer_wins cW
  exact ⟨h.1 stW0 dTripDel tripW (by decide) (by decide) (by decide),
    h.2.1 stW0 dTripDelGhost (by decide) (by decide)⟩

/-! ## C10 — orphan activity rows bypass the ownership check -/

/-- C10: when the stored activity's `day_id` resolves to no day, the
update branch runs with no ownership verification at all — the outcome is
the same for every caller id: the patch applies whenever the conflict
policy accepts it, mutating the activity and incrementing
`activities_uploaded`. -/
theorem sync_orphan_activity_no_ownership_check
    (uid : Nat) (strat : Strategy) (c : Clock) (st : SyncState)
    (d : ActivitySyncData) (a : Activity)
    (ha : st.store.activities d.id = some a)
    (hday : st.store.days a.day_id = none)
    (hdel : d.is_deleted = false) :
    syncActivityStep uid strat c st d = activityUpdateBranch strat c st d a
    ∧ (should_update c.now d.local_updated_at (some a.local_updated_at) strat = true →
        syncActivityStep uid strat c st d =
          { st with
            store := { st.store with
              activities := mapSet st.store.activities d.id (some (applyActivityPatch a c d)) }
            activities_uploaded := st.activities_uploaded + 1 })
    ∧ (should_update c.now d.local_updated_at (some a.local_updated_at) strat = false →
        syncActivityStep uid strat c st d = st) := by
  refine ⟨?_, ?_, ?_⟩
  · simp [syncActivityStep, ha, hday, hdel]
  · intro hs; simp [syncActivityStep, activityUpdateBranch, ha, hday, hdel, hs]
  · intro hs; simp [syncActivityStep, activityUpdateBranch, ha, hday, hdel, hs]

/-- Newer incoming record for the orphan activity `A2`. -/
def dActOrphanNew : ActivitySyncData :=
  { dActOld with id := "A2", day_id := "DX", local_updated_at := tsAt 50 }

/-- Witness for C10 at concrete inputs: caller 42 (no relation to any
stored row) successfully updates the orphan activity `A2`. -/
theorem sync_orphan_activity_no_ownership_check_w :
    syncActivityStep 42 Strategy.newer_wins cW stW0 dActOrphanNew =
      { stW0 with
        store := { stW0.store with
          activities := mapSet stW0.store.activities dActOrphanNew.id
            (some (applyActivityPatch actOrphan cW dActOrphanNew)) }
        activities_uploaded := stW0.activities_uploaded + 1 } := by
  exact (sync_orphan_activity_no_ownership_check 42 Strategy.newer_wins cW stW0
    dActOrphanNew actOrphan (by decide) (by decide) (by decide)).2.1 (by decide)

/-! ## C7 — creation of new records -/

/-- When the default is itself the falsy value, Python `or` coincides
with plain `None`-defaulting. -/
theorem pyOrStr_empty_default (v : Option String) : pyOrStr v "" = v.getD "" := by
  cases v with
  | none => rfl
  | some s => by_cases h : s = "" <;> simp [pyOrStr, h]

/-- `x or 0` coincides with `None`-defaulting to `0`. -/
theorem pyOrInt_zero_default (v : Option Int) : pyOrInt v 0 = v.getD 0 := by
  cases v with
  | none => rfl
  | some n => by_cases h : n = 0 <;> simp [pyOrInt, h]

/-- `x or False` coincides with `None`-defaulting to `False`. -/
theorem pyOrBool_false_default (v : Option Bool) : pyOrBool v false = v.getD false := by
  cases v with
  | none => rfl
  | some b => cases b <;> rfl

/-- `x or` the empty dict coincides with `None`-defaulting to it. -/
theorem pyOrDict_nil_default (v : Option (List (String × String))) :
    pyOrDict v [] = v.getD [] := by
  cases v with
  | none => rfl
  | some l => cases l <;> rfl

/-- Incoming record for a fresh trip id `T3` carrying a present-but-empty
title. -/
def dTripEmptyTitle : TripSyncData := { dTripOld with id := "T3", title := some "" }

/-- Fresh sync state over the empty store. -/
def stE0 : SyncState := initState emptyStore

/-- C7 counterexample: a trip created from a record whose `title` field is
present (the empty string) is stored with the default "Untitled Trip"
instead of the incoming value — the `or`-based defaulting fires on any
falsy value, not only on omitted fields. -/
theorem sync_create_empty_title_defaulted :
    dTripEmptyTitle.title = some ""
    ∧ ((syncTripStep 0 Strategy.newer_wins cW stE0 dTripEmptyTitle).store.trips "T3").map
        Trip.title = some "Untitled Trip" := by
  decide

/-- C7 (amended): a non-deleted incoming record matching no server record
creates a new row whenever its required parent resolves and is owned by
the caller (no parent needed for a trip), with `is_synced = true`, the
uploaded counter incremented and the conflicts list untouched; when the
parent is missing or foreign, nothing happens.  Field defaults are taken
not only for omitted fields but for any Python-falsy supplied value:
empty `title`/`start_date`/`end_date` on Trip and a zero `day_number` on
Day are replaced by their defaults; for every other defaulted field the
default equals the falsy value, so there `or`-defaulting and
omitted-defaulting coincide. -/
theorem sync_create_semantics (uid : Nat) (strat : Strategy) (c : Clock) :
    (∀ st (d : TripSyncData), st.store.trips d.id = none → d.is_deleted = false →
      syncTripStep uid strat c st d =
        { st with
          store := { st.store with
            trips := mapSet st.store.trips d.id (some (mkTripFromSync uid c d)) }
          trips_uploaded := st.trips_uploaded + 1 })
    ∧ (∀ st (d : DaySyncData) trip, st.store.days d.id = none → d.is_deleted = false →
        st.store.trips d.trip_id = some trip → trip.user_id = uid →
        syncDayStep uid strat c st d =
          { st with
            store := { st.store with
              days := mapSet st.store.days d.id (some (mkDayFromSync c d)) }
            days_uploaded := st.days_uploaded + 1 })
    ∧ (∀ st (d : DaySyncData), st.store.days d.id = none → d.is_deleted = false →
        (∀ trip, st.store.trips d.trip_id = some trip → trip.user_id ≠ uid) →
        syncDayStep uid strat c st d = st)
    ∧ (∀ st (d : ActivitySyncData) day trip, st.store.activities d.id = none →
        d.is_deleted = false → st.store.days d.day_id = some day →
        st.store.trips day.trip_id = some trip → trip.user_id = uid →
        syncActivityStep uid strat c st d =
          { st with
            store := { st.store with
              activities := mapSet st.store.activities d.id (some (mkActivityFromSync c d)) }
            activities_uploaded := st.activities_uploaded + 1 })
    ∧ (∀ st (d : ActivitySyncData), st.store.activities d.id = none →
        d.is_deleted = false →
        (∀ day, st.store.days d.day_id = some day →
          ∀ trip, st.store.trips day.trip_id = some trip → trip.user_id ≠ uid) →
        syncActivityStep uid strat c st d = st)
    ∧ (∀ st (d : BudgetItemSyncData) trip, st.store.budget_items d.id = none →
        d.is_deleted = false → st.store.trips d.trip_id = some trip → trip.user_id = uid →
        syncBudgetItemStep uid strat c st d =
          { st with
            store := { st.store with
              budget_items := mapSet st.store.budget_items d.id (some (mkBudgetItemFromSync c d)) }
            budget_items_uploaded := st.budget_items_uploaded + 1 })
    ∧ (∀ st (d : BudgetItemSyncData), st.store.budget_items d.id = none →
        d.is_deleted = false →
        (∀ trip, st.store.trips d.trip_id = some trip → trip.user_id ≠ uid) →
        syncBudgetItemStep uid strat c st d = st)
    ∧ (∀ st (d : NoteSyncData) trip, st.store.notes d.id = none →
        d.is_deleted = false → st.store.trips d.trip_id = some trip → trip.user_id = uid →
        syncNoteStep uid strat c st d =
          { st with
            store := { st.store with
              notes := mapSet st.store.notes d.id (some (mkNoteFromSync c d)) }
            notes_uploaded := st.notes_uploaded + 1 })
    ∧ (∀ st (d : NoteSyncData), st.store.notes d.id = none →
        d.is_deleted = false →
        (∀ trip, st.store.trips d.trip_id = some trip → trip.user_id ≠ uid) →
        syncNoteStep uid strat c st d = st)
    ∧ (∀ d : TripSyncData,
        (mkTripFromSync uid c d).user_id = uid
        ∧ (mkTripFromSync uid c d).is_synced = true
        ∧ (mkTripFromSync uid c d).local_updated_at = parse_timestamp c.now d.local_updated_at
        ∧ (mkTripFromSync uid c d).budget = d.budget
        ∧ (mkTripFromSync uid c d).destination = d.destination.getD ""
        ∧ (mkTripFromSync uid c d).preferences = d.preferences.getD []
        ∧ (mkTripFromSync uid c d).is_generated = d.is_generated.getD false)
    ∧ (∀ (d : TripSyncData) s, d.title = some s → s ≠ "" → (mkTripFromSync uid c d).title = s)
    ∧ (∀ d : TripSyncData, d.title = none ∨ d.title = some "" →
        (mkTripFromSync uid c d).title = "Untitled Trip")
    ∧ (∀ (d : TripSyncData) s, d.start_date = some s → s ≠ "" →
        (mkTripFromSync uid c d).start_date = s)
    ∧ (∀ d : TripSyncData, d.start_date = none ∨ d.start_date = some "" →
        (mkTripFromSync uid c d).start_date = c.nowDate)
    ∧ (∀ (d : TripSyncData) s, d.end_date = some s → s ≠ "" →
        (mkTripFromSync uid c d).end_date = s)
    ∧ (∀ d : TripSyncData, d.end_date = none ∨ d.end_date = some "" →
        (mkTripFromSync uid c d).end_date = c.nowDate)
    ∧ (∀ d : DaySyncData,
        (mkDayFromSync c d).trip_id = d.trip_id
        ∧ (mkDayFromSync c d).date = d.date.getD ""
        ∧ (mkDayFromSync c d).title = some (d.title.getD "")
        ∧ (mkDayFromSync c d).is_synced = true
        ∧ (mkDayFromSync c d).local_updated_at = parse_timestamp c.now d.local_updated_at)
    ∧ (∀ (d : DaySyncData) n, d.day_number = some n → n ≠ 0 →
        (mkDayFromSync c d).day_number = n)
    ∧ (∀ d : DaySyncData, d.day_number = none ∨ d.day_number = some 0 →
        (mkDayFromSync c d).day_number = 1)
    ∧ (∀ d : ActivitySyncData,
        (mkActivityFromSync c d).day_id = d.day_id
        ∧ (mkActivityFromSync c d).time = d.time
        ∧ (mkActivityFromSync c d).title = d.title.getD ""
        ∧ (mkActivityFromSync c d).description = d.description
        ∧ (mkActivityFromSync c d).location = d.location
        ∧ (mkActivityFromSync c d).estimated_cost = some (d.estimated_cost.getD 0)
        ∧ (mkActivityFromSync c d).notes = d.notes
        ∧ (mkActivityFromSync c d).is_completed = d.is_completed.getD false
        ∧ (mkActivityFromSync c d).is_synced = true
        ∧ (mkActivityFromSync c d).local_updated_at = parse_timestamp c.now d.local_updated_at)
    ∧ (∀ d : BudgetItemSyncData,
        (mkBudgetItemFromSync c d).trip_id = d.trip_id
        ∧ (mkBudgetItemFromSync c d).category = d.category.getD ""
        ∧ (mkBudgetItemFromSync c d).amount = d.amount.getD 0
        ∧ (mkBudgetItemFromSync c d).note = d.note
        ∧ (mkBudgetItemFromSync c d).is_synced = true
        ∧ (mkBudgetItemFromSync c d).local_updated_at = parse_timestamp c.now d.local_updated_at)
    ∧ (∀ d : NoteSyncData,
        (mkNoteFromSync c d).trip_id = d.trip_id
        ∧ (mkNoteFromSync c d).content = d.content.getD ""
        ∧ (mkNoteFromSync c d).is_synced = true
        ∧ (mkNoteFromSync c d).local_updated_at = parse_timestamp c.now d.local_updated_at) := by
  refine ⟨?_, ?_, ?_, ?_, ?_, ?_, ?_, ?_, ?_, ?_, ?_, ?_, ?_, ?_, ?_, ?_, ?_, ?_, ?_, ?_, ?_, ?_⟩
  · intro st d hlk hdel; simp [syncTripStep, hlk, hdel]
  · intro st d trip hlk hdel htr hown; simp [syncDayStep, hlk, hdel, htr, hown]
  · intro st d hlk hdel hch
    cases htr : st.store.trips d.trip_id with
    | none => simp [syncDayStep, hlk, hdel, htr]
    | some trip => simp [syncDayStep, hlk, hdel, htr, hch trip htr]
  · intro st d day trip hlk hdel hdy htr hown
    simp [syncActivityStep, hlk, hdel, hdy, htr, hown]
  · intro st d hlk hdel hch
    cases hdy : st.store.days d.day_id with
    | none => simp [syncActivityStep, hlk, hdel, hdy]
    | some day =>
      cases htr : st.store.trips day.trip_id with
      | none => simp [syncActivityStep, hlk, hdel, hdy, htr]
      | some trip => simp [syncActivityStep, hlk, hdel, hdy, htr, hch day hdy trip htr]
  · intro st d trip hlk hdel htr hown; simp [syncBudgetItemStep, hlk, hdel, htr, hown]
  · intro st d hlk hdel hch
    cases htr : st.store.trips d.trip_id with
    | none => simp [syncBudgetItemStep, hlk, hdel, htr]
    | some trip => simp [syncBudgetItemStep, hlk, hdel, htr, hch trip htr]
  · intro st d trip hlk hdel htr hown; simp [syncNoteStep, hlk, hdel, htr, hown]
  · intro st d hlk hdel hch
    cases htr : st.store.trips d.trip_id with
    | none => simp [syncNoteStep, hlk, hdel, htr]
    | some trip => simp [syncNoteStep, hlk, hdel, htr, hch trip htr]
  · intro d
    exact ⟨rfl, rfl, rfl, rfl, pyOrStr_empty_default d.destination,
      pyOrDict_nil_default d.preferences, pyOrBool_false_default d.is_generated⟩
  · intro d s hs hne; simp [mkTripFromSync, pyOrStr, hs, hne]
  · intro d hd
    rcases hd with h | h <;> simp [mkTripFromSync, pyOrStr, h]
  · intro d s hs hne; simp [mkTripFromSync, pyOrStr, hs, hne]
  · intro d hd
    rcases hd with h | h <;> simp [mkTripFromSync, pyOrStr, h]
  · intro d s hs hne; simp [mkTripFromSync, pyOrStr, hs, hne]
  · intro d hd
    rcases hd with h | h <;> simp [mkTripFromSync, pyOrStr, h]
  · intro d
    exact ⟨rfl, pyOrStr_empty_default d.date, congrArg some (pyOrStr_empty_default d.title),
      rfl, rfl⟩
  · intro d n hn hne; simp [mkDayFromSync, pyOrInt, hn, hne]
  · intro d hd
    rcases hd with h | h <;> simp [mkDayFromSync, pyOrInt, h]
  · intro d
    exact ⟨rfl, rfl, pyOrStr_empty_default d.title, rfl, rfl,
      congrArg some (pyOrInt_zero_default d.estimated_cost), rfl,
      pyOrBool_false_default d.is_completed, rfl, rfl⟩
  · intro d
    exact ⟨rfl, pyOrStr_empty_default d.category, pyOrInt_zero_default d.amount,
      rfl, rfl, rfl⟩
  · intro d
    exact ⟨rfl, pyOrStr_empty_default d.content, rfl, rfl⟩

/-- Incoming record for a fresh trip id `T9`. -/
def dTripFresh : TripSyncData := { dTripOld with id := "T9" }

/-- Witness for C7 at concrete inputs: creating a fresh trip on the empty
store, and a day record whose parent trip is absent being skipped. -/
theorem sync_create_semantics_w :
    syncTripStep 0 Strategy.newer_wins cW stE0 dTripFresh =
      { stE0 with
        store := { stE0.store with
          trips := mapSet stE0.store.trips dTripFresh.id (some (mkTripFromSync 0 cW dTripFresh)) }
        trips_uploaded := stE0.trips_uploaded + 1 }
    ∧ syncDayStep 0 Strategy.newer_wins cW stE0 dDayOld = stE0 := by
  have h := sync_create_semantics 0 Strategy.newer_wins cW
  refine ⟨h.1 stE0 dTripFresh (by decide) (by decide), ?_⟩
  refine h.2.2.1 stE0 dDayOld (by decide) (by decide) ?_
  intro trip hl
  simp [stE0, initState, emptyStore] at hl

/-! ## C9 — pass ordering lets a batch create a whole chain -/

/-- C9: in a single call carrying a new trip, a new day referencing it
and a new activity referencing the day, the reconcilers run in the order
trips, days, activities, so each child's parent lookup sees the parent
staged earlier in the same call: all three rows are created and all three
uploaded counters are incremented, with no conflicts. -/
theorem sync_cascade_create_order
    (uid : Nat) (strat : Strategy) (c : Clock) (s : Store)
    (t : TripSyncData) (d : DaySyncData) (a : ActivitySyncData)
    (ht : s.trips t.id = none) (hd : s.days d.id = none) (ha : s.activities a.id = none)
    (htd : t.is_deleted = false) (hdd : d.is_deleted = false) (had : a.is_deleted = false)
    (hlink1 : d.trip_id = t.id) (hlink2 : a.day_id = d.id)
    (req : SyncRequest)
    (hreq : req =
      { last_sync_at := none, conflict_resolution := strat
        trips := [t], days := [d], activities := [a], budget_items := [], notes := [] }) :
    (sync_upload uid c req s).store.trips t.id = some (mkTripFromSync uid c t)
    ∧ (sync_upload uid c req s).store.days d.id = some (mkDayFromSync c d)
    ∧ (sync_upload uid c req s).store.activities a.id = some (mkActivityFromSync c a)
    ∧ (sync_upload uid c req s).trips_uploaded = 1
    ∧ (sync_upload uid c req s).days_uploaded = 1
    ∧ (sync_upload uid c req s).activities_uploaded = 1
    ∧ (sync_upload uid c req s).conflicts = [] := by
  subst hreq
  have e1 : syncTripStep uid strat c (initState s) t =
      { store := { s with trips := mapSet s.trips t.id (some (mkTripFromSync uid c t)) }
        trips_uploaded := 1, days_uploaded := 0, activities_uploaded := 0
        budget_items_uploaded := 0, notes_uploaded := 0, conflicts := [] } := by
    simp [syncTripStep, ht, htd, initState]
  have e2 : syncDayStep uid strat c
      { store := { s with trips := mapSet s.trips t.id (some (mkTripFromSync uid c t)) }
        trips_uploaded := 1, days_uploaded := 0, activities_uploaded := 0
        budget_items_uploaded := 0, notes_uploaded := 0, conflicts := [] } d =
      { store :=
          { s with
            trips := mapSet s.trips t.id (some (mkTripFromSync uid c t))
            days := mapSet s.days d.id (some (mkDayFromSync c d)) }
        trips_uploaded := 1, days_uploaded := 1, activities_uploaded := 0
        budget_items_uploaded := 0, notes_uploaded := 0, conflicts := [] } := by
    simp [syncDayStep, hd, hdd, hlink1, mapSet, mkTripFromSync]
  have e3 : syncActivityStep uid strat c
      { store :=
          { s with
            trips := mapSet s.trips t.id (some (mkTripFromSync uid c t))
            days := mapSet s.days d.id (some (mkDayFromSync c d)) }
        trips_uploaded := 1, days_uploaded := 1, activities_uploaded := 0
        budget_items_uploaded := 0, notes_uploaded := 0, conflicts := [] } a =
      { store :=
          { s with
            trips := mapSet s.trips t.id (some (mkTripFromSync uid c t))
            days := mapSet s.days d.id (some (mkDayFromSync c d))
            activities := mapSet s.activities a.id (some (mkActivityFromSync c a)) }
        trips_uploaded := 1, days_uploaded := 1, activities_uploaded := 1
        budget_items_uploaded := 0, notes_uploaded := 0, conflicts := [] } := by
    simp [syncActivityStep, ha, had, hlink2, hlink1, mapSet, mkDayFromSync, mkTripFromSync]
  simp only [sync_upload, List.foldl_cons, List.foldl_nil, e1, e2, e3]
  simp [mapSet]

/-- Day record referencing the fresh trip `T9`. -/
def dDayFresh : DaySyncData := { dDayOld with id := "D9", trip_id := "T9" }

/-- Activity record referencing the fresh day `D9`. -/
def dActFresh : ActivitySyncData := { dActOld with id := "A9", day_id := "D9" }

/-- The request used by the C9 witness. -/
def reqChainW : SyncRequest where
  last_sync_at := none
  conflict_resolution := Strategy.newer_wins
  trips := [dTripFresh]
  days := [dDayFresh]
  activities := [dActFresh]
  budget_items := []
  notes := []

/-- Witness for C9 at concrete inputs: trip, day and activity all new in
one call on the empty store. -/
theorem sync_cascade_create_order_w :
    (sync_upload 0 cW reqChainW emptyStore).store.days "D9" =
      some (mkDayFromSync cW dDayFresh)
    ∧ (sync_upload 0 cW reqChainW emptyStore).activities_uploaded = 1 := by
  have h := sync_cascade_create_order 0 Strategy.newer_wins cW emptyStore
    dTripFresh dDayFresh dActFresh
    (by decide) (by decide) (by decide) (by decide) (by decide) (by decide)
    (by decide) (by decide) reqChainW (by decide)
  exact ⟨h.2.1, h.2.2.2.2.2.1⟩

/-! ## C5 — download (delta query) characterization -/

/-- Membership in `user_trip_ids` is ownership of some stored trip. -/
theorem mem_userTripIds (uid : Nat) (db : Rows) (i : Id) :
    i ∈ userTripIds uid db ↔ ∃ t, t ∈ db.trips ∧ t.user_id = uid ∧ t.id = i := by
  simp only [userTripIds, List.mem_map, List.mem_filter, decide_eq_true_eq]
  tauto

/-- Membership in `user_day_ids` is being a day of one of the caller's
trips. -/
theorem mem_userDayIds (uid : Nat) (db : Rows) (i : Id) :
    i ∈ userDayIds uid db ↔
      ∃ dy, dy ∈ db.days ∧ dy.trip_id ∈ userTripIds uid db ∧ dy.id = i := by
  simp only [userDayIds, List.mem_map, List.mem_filter, decide_eq_true_eq]
  tauto

/-- `user_trip_ids` is empty exactly when the caller owns no stored trip. -/
theorem userTripIds_nil (uid : Nat) (db : Rows) :
    userTripIds uid db = [] ↔ ∀ t ∈ db.trips, t.user_id ≠ uid := by
  simp [userTripIds, List.filter_eq_nil_iff]

/-- `user_day_ids` is empty exactly when no stored day belongs to a trip
of the caller. -/
theorem userDayIds_nil (uid : Nat) (db : Rows) :
    userDayIds uid db = [] ↔ ∀ dy ∈ db.days, dy.trip_id ∉ userTripIds uid db := by
  simp [userDayIds, List.filter_eq_nil_iff]

/-- The download lists, branch-collapsed. -/
theorem sync_download_lists (uid : Nat) (ls : Int) (db : Rows) :
    (sync_download uid (some ls) db).trips = updatedTrips uid ls db
    ∧ (sync_download uid (some ls) db).days =
        (if userTripIds uid db = [] then [] else updatedDays uid ls db)
    ∧ (sync_download uid (some ls) db).activities =
        (if userTripIds uid db = [] then [] else updatedActivities uid ls db)
    ∧ (sync_download uid (some ls) db).budget_items =
        (if userTripIds uid db = [] then [] else updatedBudgetItems uid ls db)
    ∧ (sync_download uid (some ls) db).notes =
        (if userTripIds uid db = [] then [] else updatedNotes uid ls db)
    ∧ (sync_download uid (some ls) db).trips_downloaded =
        (sync_download uid (some ls) db).trips.length
    ∧ (sync_download uid (some ls) db).days_downloaded =
        (sync_download uid (some ls) db).days.length
    ∧ (sync_download uid (some ls) db).activities_downloaded =
        (sync_download uid (some ls) db).activities.length
    ∧ (sync_download uid (some ls) db).budget_items_downloaded =
        (sync_download uid (some ls) db).budget_items.length
    ∧ (sync_download uid (some ls) db).notes_downloaded =
        (sync_download uid (some ls) db).notes.length := by
  by_cases h : userTripIds uid db = [] <;> simp [sync_download, h]

/-- C5: with a watermark, each download list holds precisely the caller's
records strictly newer than the watermark (trips by `user_id`; days,
budget items and notes through an owned trip; activities through a day of
an owned trip), each exactly once (given primary-key uniqueness of the
table rows), with every downloaded counter equal to its list's length;
without a watermark everything is empty and zero. -/
theorem sync_download_characterization
    (uid : Nat) (ls : Int) (db : Rows)
    (hnt : (db.trips.map Trip.id).Nodup)
    (hnd : (db.days.map Day.id).Nodup)
    (hna : (db.activities.map Activity.id).Nodup)
    (hnb : (db.budget_items.map BudgetItem.id).Nodup)
    (hnn : (db.notes.map Note.id).Nodup) :
    (∀ t : Trip, t ∈ (sync_download uid (some ls) db).trips ↔
      t ∈ db.trips ∧ t.user_id = uid ∧ ls < t.local_updated_at)
    ∧ (∀ t : Trip, t ∈ (sync_download uid (some ls) db).trips →
        (sync_download uid (some ls) db).trips.count t = 1)
    ∧ (∀ dy : Day, dy ∈ (sync_download uid (some ls) db).days ↔
        dy ∈ db.days ∧ (∃ t, t ∈ db.trips ∧ t.user_id = uid ∧ t.id = dy.trip_id) ∧
          ls < dy.local_updated_at)
    ∧ (∀ dy : Day, dy ∈ (sync_download uid (some ls) db).days →
        (sync_download uid (some ls) db).days.count dy = 1)
    ∧ (∀ a : Activity, a ∈ (sync_download uid (some ls) db).activities ↔
        a ∈ db.activities ∧
          (∃ dy, dy ∈ db.days ∧
            (∃ t, t ∈ db.trips ∧ t.user_id = uid ∧ t.id = dy.trip_id) ∧ dy.id = a.day_id) ∧
          ls < a.local_updated_at)
    ∧ (∀ a : Activity, a ∈ (sync_download uid (some ls) db).activities →
        (sync_download uid (some ls) db).activities.count a = 1)
    ∧ (∀ b : BudgetItem, b ∈ (sync_download uid (some ls) db).budget_items ↔
        b ∈ db.budget_items ∧ (∃ t, t ∈ db.trips ∧ t.user_id = uid ∧ t.id = b.trip_id) ∧
          ls < b.local_updated_at)
    ∧ (∀ b : BudgetItem, b ∈ (sync_download uid (some ls) db).budget_items →
        (sync_download uid (some ls) db).budget_items.count b = 1)
    ∧ (∀ n : Note, n ∈ (sync_download uid (some ls) db).notes ↔
        n ∈ db.notes ∧ (∃ t, t ∈ db.trips ∧ t.user_id = uid ∧ t.id = n.trip_id) ∧
          ls < n.local_updated_at)
    ∧ (∀ n : Note, n ∈ (sync_download uid (some ls) db).notes →
        (sync_download uid (some ls) db).notes.count n = 1)
    ∧ (sync_download uid (some ls) db).trips_downloaded =
        (sync_download uid (some ls) db).trips.length
    ∧ (sync_download uid (some ls) db).days_downloaded =
        (sync_download uid (some ls) db).days.length
    ∧ (sync_download uid (some ls) db).activities_downloaded =
        (sync_download uid (some ls) db).activities.length
    ∧ (sync_download uid (some ls) db).budget_items_downloaded =
        (sync_download uid (some ls) db).budget_items.length
    ∧ (sync_download uid (some ls) db).notes_downloaded =
        (sync_download uid (some ls) db).notes.length
    ∧ sync_download uid none db =
        { trips := [], days := [], activities := [], budget_items := [], notes := []
          trips_downloaded := 0, days_downloaded := 0, activities_downloaded := 0
          budget_items_downloaded := 0, notes_downloaded := 0 } := by
  obtain ⟨hT, hD, hA, hB, hN, c1, c2, c3, c4, c5⟩ := sync_download_lists uid ls db
  have hmemD : ∀ dy : Day, dy ∈ (sync_download uid (some ls) db).days ↔
      dy ∈ db.days ∧ dy.trip_id ∈ userTripIds uid db ∧ ls < dy.local_updated_at := by
    intro dy
    rw [hD]
    by_cases h : userTripIds uid db = []
    · rw [if_pos h]; simp [h]
    · simp [h, updatedDays, List.mem_filter]
  have hudi_nil : userTripIds uid db = [] → userDayIds uid db = [] := by
    intro h
    rw [userDayIds_nil]
    intro dy _ hmem
    rw [h] at hmem
    exact List.not_mem_nil _ hmem
  have hmemA : ∀ a : Activity, a ∈ (sync_download uid (some ls) db).activities ↔
      a ∈ db.activities ∧ a.day_id ∈ userDayIds uid db ∧ ls < a.local_updated_at := by
    intro a
    rw [hA]
    by_cases h : userTripIds uid db = []
    · rw [if_pos h]; simp [hudi_nil h]
    · rw [if_neg h]
      unfold updatedActivities
      by_cases h2 : userDayIds uid db = []
      · rw [if_pos h2]; simp [h2]
      · rw [if_neg h2]; simp [List.mem_filter]
  have hmemB : ∀ b : BudgetItem, b ∈ (sync_download uid (some ls) db).budget_items ↔
      b ∈ db.budget_items ∧ b.trip_id ∈ userTripIds uid db ∧ ls < b.local_updated_at := by
    intro b
    rw [hB]
    by_cases h : userTripIds uid db = []
    · rw [if_pos h]; simp [h]
    · simp [h, updatedBudgetItems, List.mem_filter]
  have hmemN : ∀ n : Note, n ∈ (sync_download uid (some ls) db).notes ↔
      n ∈ db.notes ∧ n.trip_id ∈ userTripIds uid db ∧ ls < n.local_updated_at := by
    intro n
    rw [hN]
    by_cases h : userTripIds uid db = []
    · rw [if_pos h]; simp [h]
    · simp [h, updatedNotes, List.mem_filter]
  refine ⟨?_, ?_, ?_, ?_, ?_, ?_, ?_, ?_, ?_, ?_, c1, c2, c3, c4, c5, rfl⟩
  · intro t
    rw [hT]
    simp [updatedTrips, List.mem_filter]
  · intro t hm
    rw [hT] at hm ⊢
    exact List.count_eq_one_of_mem ((hnt.of_map).filter _) hm
  · intro dy
    rw [hmemD dy, mem_userTripIds]
  · intro dy hm
    rw [hD] at hm ⊢
    by_cases h : userTripIds uid db = []
    · rw [h] at hm; simp at hm
    · rw [if_neg h] at hm ⊢
      exact List.count_eq_one_of_mem ((hnd.of_map).filter _) hm
  · intro a
    rw [hmemA a]
    constructor
    · rintro ⟨ha1, ha2, ha3⟩
      rw [mem_userDayIds] at ha2
      obtain ⟨dy, hdy1, hdy2, hdy3⟩ := ha2
      rw [mem_userTripIds] at hdy2
      exact ⟨ha1, ⟨dy, hdy1, hdy2, hdy3⟩, ha3⟩
    · rintro ⟨ha1, ⟨dy, hdy1, hdy2, hdy3⟩, ha3⟩
      refine ⟨ha1, ?_, ha3⟩
      rw [mem_userDayIds]
      exact ⟨dy, hdy1, (mem_userTripIds uid db dy.trip_id).mpr hdy2, hdy3⟩
  · intro a hm
    rw [hA] at hm ⊢
    by_cases h : userTripIds uid db = []
    · rw [h] at hm; simp at hm
    · rw [if_neg h] at hm ⊢
      unfold updatedActivities at hm ⊢
      by_cases h2 : userDayIds uid db = []
      · rw [if_pos h2] at hm; simp at hm
      · rw [if_neg h2] at hm ⊢
        exact List.count_eq_one_of_mem ((hna.of_map).filter _) hm
  · intro b
    rw [hmemB b, mem_userTripIds]
  · intro b hm
    rw [hB] at hm ⊢
    by_cases h : userTripIds uid db = []
    · rw [h] at hm; simp at hm
    · rw [if_neg h] at hm ⊢
      exact List.count_eq_one_of_mem ((hnb.of_map).filter _) hm
  · intro n
    rw [hmemN n, mem_userTripIds]
  · intro n hm
    rw [hN] at hm ⊢
    by_cases h : userTripIds uid db = []
    · rw [h] at hm; simp at hm
    · rw [if_neg h] at hm ⊢
      exact List.count_eq_one_of_mem ((hnn.of_map).filter _) hm

/-- The committed rows used by the C5 witness. -/
def dbW : Rows where
  trips := [tripW, tripB]
  days := [dayW, dayB]
  activities := [actW, actOrphan, actB]
  budget_items := [budW, budB]
  notes := [noteW, noteB]

/-- Witness for C5 at concrete inputs: caller 0, watermark 5; the owned
trip (updated at 10) is delivered and the counters match. -/
theorem sync_download_characterization_w :
    tripW ∈ (sync_download 0 (some 5) dbW).trips
    ∧ (sync_download 0 (some 5) dbW).trips_downloaded =
        (sync_download 0 (some 5) dbW).trips.length := by
  have h := sync_download_characterization 0 5 dbW
    (by decide) (by decide) (by decide) (by decide) (by decide)
  exact ⟨(h.1 tripW).mpr ⟨by decide, by decide, by decide⟩, h.2.2.2.2.2.2.2.2.2.2.1⟩

/-! ## C6 — upload idempotence fails on the code -/

/-- One-record payload: create / update trip `T3` whose supplied title is
the empty string, under `client_wins`. -/
def reqIdem : SyncRequest where
  last_sync_at := none
  conflict_resolution := Strategy.client_wins
  trips := [dTripEmptyTitle]
  days := []
  activities := []
  budget_items := []
  notes := []

/-- C6: applying the same upload payload twice with identical record
timestamps does not leave the store in the same end state as applying it
once.  The first application creates `T3` with the defaulted title
"Untitled Trip" (the `or`-based defaulting fires on the supplied empty
string); the second application takes the update path, whose
`is not None` sparse patch faithfully writes the empty string — so the
stores differ.  This contradicts the specified idempotence property. -/
theorem sync_upload_second_apply_differs :
    ((uploadStore 0 cW reqIdem emptyStore).trips "T3").map Trip.title =
      some "Untitled Trip"
    ∧ ((uploadStore 0 cW reqIdem (uploadStore 0 cW reqIdem emptyStore)).trips "T3").map
        Trip.title = some ""
    ∧ uploadStore 0 cW reqIdem (uploadStore 0 cW reqIdem emptyStore) ≠
        uploadStore 0 cW reqIdem emptyStore := by
  have h1 : ((uploadStore 0 cW reqIdem emptyStore).trips "T3").map Trip.title =
      some "Untitled Trip" := by decide
  have h2 : ((uploadStore 0 cW reqIdem (uploadStore 0 cW reqIdem emptyStore)).trips "T3").map
      Trip.title = some "" := by decide
  refine ⟨h1, h2, fun heq => ?_⟩
  rw [heq, h1] at h2
  exact absurd (Option.some.inj h2) (by decide)

end TripCraft
